import Mathlib

/-!
Verification of the course-catalog application (`app.py`).

The application keeps an ordered catalog of course records in a single JSON
file (`course_catalog.json`).  We embed the store operations
(`load_courses`, `save_courses`), the linear lookup performed by the
`course_details` route, and the POST branch of the `add_courses` route as
pure Lean functions over an explicit file state, and prove the catalog's
functional properties against them.
-/

/-- A course record: the nine text fields read from the add-course form and
stored in the JSON file (`app.py`, lines 143-153). -/
structure Course where
  code : String
  name : String
  instructor : String
  semester : String
  schedule : String
  classroom : String
  prerequisites : String
  grading : String
  description : String
deriving DecidableEq, Repr

/-- Errors the store can raise: `json.load` raises a decode error on
malformed content (ParseError), and `open` raises an OS error when the file
exists but cannot be read (IOError). -/
inductive StoreError where
  | parseError
  | ioError
deriving DecidableEq, Repr

/-- The state of the backing file `course_catalog.json`: absent, holding a
valid serialized list of course records, holding malformed content, or
existing but unreadable. -/
inductive FileState where
  | absent
  | valid (courses : List Course)
  | malformed
  | unreadable
deriving DecidableEq, Repr

/-- Embedding of `load_courses` (`app.py`, lines 61-66): if the file does
not exist (`os.path.exists` false) return `[]`; otherwise open and
`json.load` it, which yields the stored list, or raises a decode error on
malformed content, or an OS error if the file cannot be opened for
reading. -/
def load_courses : FileState → Except StoreError (List Course)
  | .absent => .ok []
  | .valid cs => .ok cs
  | .malformed => .error .parseError
  | .unreadable => .error .ioError

/-- State-passing form of `load_courses`: the file is opened with mode
`'r'` (read-only), so the call returns the loaded result together with the
backing file state, which it never modifies. -/
def load_courses_st : FileState → Except StoreError (List Course) × FileState
  | .absent => (.ok [], .absent)
  | .valid cs => (.ok cs, .valid cs)
  | .malformed => (.error .parseError, .malformed)
  | .unreadable => (.error .ioError, .unreadable)

/-- Embedding of `save_courses` (`app.py`, lines 69-74): load the current
list (errors propagate), append `data`, and rewrite the whole file with the
new list via `json.dump`. -/
def save_courses (data : Course) (s : FileState) : Except StoreError FileState :=
  match load_courses s with
  | .error e => .error e
  | .ok courses => .ok (.valid (courses ++ [data]))

/-- Iterated `save_courses`: appends the given records one by one, stopping
at the first failure.  Models a sequence of successful add requests. -/
def appendAll (records : List Course) (s : FileState) : Except StoreError FileState :=
  match records with
  | [] => .ok s
  | r :: rest =>
    match save_courses r s with
    | .error e => .error e
    | .ok s' => appendAll rest s'

/-- The linear scan in `course_details` (`app.py`, line 118):
`next((course for course in courses if course.code == code), None)` — the
first record whose `code` equals the given value, else `None`. -/
def findByCode (courses : List Course) (code : String) : Option Course :=
  courses.find? (fun course => course.code == code)

/-- Outcome of the `course_details` route after loading succeeds: render
the detail page, or flash an error and redirect to the catalog list when no
record matches. -/
inductive DetailsResult where
  | render (course : Course)
  | redirectNotFound
deriving DecidableEq, Repr

/-- Embedding of the `course_details` route body (`app.py`, lines 117-128)
applied to a loaded catalog. -/
def course_details (code : String) (courses : List Course) : DetailsResult :=
  match findByCode courses code with
  | some course => .render course
  | none => .redirectNotFound

/-- A submitted form: a partial map from field names to submitted values.
`request.form[k]` raises a key-lookup error when `k` is absent. -/
abbrev Form := String → Option String

/-- The nine field names read from the form by `add_courses`
(`app.py`, lines 144-152), in evaluation order. -/
def fieldNames : List String :=
  ["code", "name", "instructor", "semester", "schedule", "classroom",
   "prerequisites", "grading", "description"]

/-- Building the `course` dict (`app.py`, lines 143-153): each
`request.form[...]` lookup is performed unconditionally, in source order;
the first absent key aborts with a key-lookup error naming that key. -/
def readForm (form : Form) : Except String Course :=
  match form "code" with
  | none => .error "code"
  | some code =>
  match form "name" with
  | none => .error "name"
  | some name =>
  match form "instructor" with
  | none => .error "instructor"
  | some instructor =>
  match form "semester" with
  | none => .error "semester"
  | some semester =>
  match form "schedule" with
  | none => .error "schedule"
  | some schedule =>
  match form "classroom" with
  | none => .error "classroom"
  | some classroom =>
  match form "prerequisites" with
  | none => .error "prerequisites"
  | some prerequisites =>
  match form "grading" with
  | none => .error "grading"
  | some grading =>
  match form "description" with
  | none => .error "description"
  | some description =>
    .ok { code := code, name := name, instructor := instructor,
          semester := semester, schedule := schedule, classroom := classroom,
          prerequisites := prerequisites, grading := grading,
          description := description }

/-- The missing-field computation (`app.py`, lines 158-161): a required
field is appended to `missing` exactly when its submitted value equals the
empty string, in the order code, name, instructor. -/
def missingFields (course : Course) : List String :=
  (if course.code = "" then ["code"] else []) ++
  (if course.name = "" then ["name"] else []) ++
  (if course.instructor = "" then ["instructor"] else [])

/-- Outcome of the POST branch of `add_courses`: a key-lookup failure while
reading the form, a validation failure re-rendering the form with the
echoed values and the missing-field list, a store error propagated uncaught
from `save_courses`, or a success redirect to the catalog. -/
inductive AddPostResult where
  | keyError (field : String)
  | validationFailure (missing : List String) (echoed : Course)
  | storeError (e : StoreError)
  | redirectSuccess (course : Course)
deriving DecidableEq, Repr

/-- Whether an `AddPostResult` is a key-lookup failure. -/
def AddPostResult.isKeyErr : AddPostResult → Bool
  | .keyError _ => true
  | _ => false

/-- Embedding of the POST branch of `add_courses` (`app.py`, lines
141-183): read the nine form fields, compute the missing required fields,
and either re-render the form (`len(missing) != 0`) or call
`save_courses` and redirect.  Returns the outcome together with the
resulting backing-file state. -/
def add_courses_post (form : Form) (s : FileState) : AddPostResult × FileState :=
  match readForm form with
  | .error k => (.keyError k, s)
  | .ok course =>
    if (missingFields course).length ≠ 0 then
      (.validationFailure (missingFields course) course, s)
    else
      match save_courses course s with
      | .error e => (.storeError e, s)
      | .ok s' => (.redirectSuccess course, s')

/-- The course record from the spec's end-to-end scenario, used as a
concrete test vector. -/
def sampleCourse : Course :=
  { code := "CS101", name := "Intro to CS", instructor := "Dr. A",
    semester := "Fall", schedule := "MWF 10am", classroom := "Rm1",
    prerequisites := "None", grading := "Letter", description := "Intro course" }

/-- The validation test vector: `code` empty, `name` and `instructor`
filled, every optional field present (empty). -/
def c5Form : Form := fun k =>
  if k = "code" then some ""
  else if k = "name" then some "CS101"
  else if k = "instructor" then some "Dr. A"
  else if k = "semester" then some ""
  else if k = "schedule" then some ""
  else if k = "classroom" then some ""
  else if k = "prerequisites" then some ""
  else if k = "grading" then some ""
  else if k = "description" then some ""
  else none

/-- The record echoed back by the validation test vector. -/
def c5Course : Course :=
  { code := "", name := "CS101", instructor := "Dr. A", semester := "",
    schedule := "", classroom := "", prerequisites := "", grading := "",
    description := "" }

/-- A submission whose required fields are the whitespace-only string
`" "`, with the optional fields present and empty. -/
def wsForm : Form := fun k =>
  if k = "code" then some " "
  else if k = "name" then some " "
  else if k = "instructor" then some " "
  else if k = "semester" then some ""
  else if k = "schedule" then some ""
  else if k = "classroom" then some ""
  else if k = "prerequisites" then some ""
  else if k = "grading" then some ""
  else if k = "description" then some ""
  else none

/-- The record produced by the whitespace submission. -/
def wsCourse : Course :=
  { code := " ", name := " ", instructor := " ", semester := "",
    schedule := "", classroom := "", prerequisites := "", grading := "",
    description := "" }

/-- A form with all nine fields filled with `"x"`. -/
def validForm : Form := fun k => if k ∈ fieldNames then some "x" else none

/-- A fully empty submission: every key is absent. -/
def emptyForm : Form := fun _ => none

/-- If the current file state loads to `cs`, then appending `records` one
by one succeeds into a state loading to `cs ++ records`. -/
theorem appendAll_load (records : List Course) :
    ∀ (s : FileState) (cs : List Course), load_courses s = .ok cs →
    ∀ s', appendAll records s = .ok s' → load_courses s' = .ok (cs ++ records) := by
  induction records with
  | nil =>
    intro s cs hcs s' h
    simp only [appendAll] at h
    cases h
    simpa using hcs
  | cons r rest ih =>
    intro s cs hcs s' h
    have hsave : save_courses r s = .ok (.valid (cs ++ [r])) := by
      simp [save_courses, hcs]
    simp only [appendAll, hsave] at h
    have := ih (.valid (cs ++ [r])) (cs ++ [r]) rfl s' h
    simpa using this

/-- Claim C1: a successful `save_courses x` from a state whose catalog was
`cs` yields a state from which `load_courses` returns exactly `cs ++ [x]`,
whose last element deep-equals `x`. -/
theorem append_roundtrip (x : Course) (s s' : FileState) (cs : List Course)
    (hsave : save_courses x s = .ok s') (hload : load_courses s = .ok cs) :
    load_courses s' = .ok (cs ++ [x]) ∧ (cs ++ [x]).getLast? = some x := by
  simp only [save_courses, hload] at hsave
  cases hsave
  exact ⟨rfl, List.getLast?_concat cs⟩

/-- Witness for C1: appending the sample course to an absent file. -/
theorem append_roundtrip_witness :
    load_courses (.valid [sampleCourse]) = .ok ([] ++ [sampleCourse]) ∧
    ([] ++ [sampleCourse]).getLast? = some sampleCourse :=
  append_roundtrip sampleCourse .absent (.valid [sampleCourse]) [] rfl rfl

/-- Claim C2: starting from an absent or empty backing file, appending `N`
records one by one via `save_courses` and then calling `load_courses`
returns exactly those records in call order. -/
theorem append_sequence_ordered (records : List Course) (s s' : FileState)
    (hstart : s = .absent ∨ s = .valid [])
    (h : appendAll records s = .ok s') :
    load_courses s' = .ok records := by
  rcases hstart with rfl | rfl
  · simpa using appendAll_load records .absent [] rfl s' h
  · simpa using appendAll_load records (.valid []) [] rfl s' h

/-- Witness for C2: two appends from an absent file load back in order. -/
theorem append_sequence_ordered_witness :
    load_courses (.valid [sampleCourse, c5Course]) = .ok [sampleCourse, c5Course] :=
  append_sequence_ordered [sampleCourse, c5Course] .absent
    (.valid [sampleCourse, c5Course]) (Or.inl rfl) rfl

/-- Claim C4: when the backing file does not exist, `load_courses` returns
the empty list and raises no error. -/
theorem load_absent_empty : load_courses .absent = .ok ([] : List Course) := rfl

/-- Claim C8: `load_courses` is read-only — the file is opened with mode
`'r'`, so for every backing-file state the call leaves the state unchanged
and returns exactly what `load_courses` computes from it. -/
theorem load_no_side_effects (s : FileState) :
    (load_courses_st s).2 = s ∧ (load_courses_st s).1 = load_courses s := by
  cases s <;> exact ⟨rfl, rfl⟩

/-- First-match characterization of the linear scan: a returned record has
the requested code, occurs in the catalog, and no earlier record has that
code. -/
theorem findByCode_first (courses : List Course) (c : String) :
    ∀ r, findByCode courses c = some r →
      r.code = c ∧ ∃ i : Nat, courses[i]? = some r ∧
        ∀ (j : Nat) (r' : Course), j < i → courses[j]? = some r' → r'.code ≠ c := by
  induction courses with
  | nil => intro r h; simp [findByCode] at h
  | cons a rest ih =>
    intro r h
    by_cases hac : a.code = c
    · rw [findByCode, List.find?_cons_of_pos _ (by simpa using hac)] at h
      cases h
      exact ⟨hac, 0, by simp, fun j r' hj => absurd hj (Nat.not_lt_zero j)⟩
    · rw [findByCode, List.find?_cons_of_neg _ (by simpa using hac)] at h
      obtain ⟨hc, i, hi, hfirst⟩ := ih r h
      refine ⟨hc, i + 1, by simpa using hi, ?_⟩
      intro j r' hj hr'
      cases j with
      | zero =>
        simp only [List.getElem?_cons_zero, Option.some.injEq] at hr'
        subst hr'
        exact hac
      | succ k =>
        exact hfirst k r' (Nat.lt_of_succ_lt_succ hj) (by simpa using hr')

/-- Claim C3: `findByCode` returns the first record in stored order whose
`code` equals the query — in particular the earliest match when duplicate
codes exist — and returns `none` exactly when the catalog is empty or no
record's code matches. -/
theorem findByCode_spec (courses : List Course) (c : String) :
    findByCode [] c = none ∧
    (findByCode courses c = none ↔ ∀ r ∈ courses, r.code ≠ c) ∧
    (∀ r, findByCode courses c = some r →
      r.code = c ∧ ∃ i : Nat, courses[i]? = some r ∧
        ∀ (j : Nat) (r' : Course), j < i → courses[j]? = some r' → r'.code ≠ c) ∧
    (findByCode courses c = none → course_details c courses = .redirectNotFound) := by
  refine ⟨rfl, ?_, findByCode_first courses c, ?_⟩
  · simp [findByCode, List.find?_eq_none]
  · intro h; simp [course_details, h]

/-- Claim C5: submitting the add form with `code = ""`, `name = "CS101"`,
`instructor = "Dr. A"` and all other fields present yields a validation
failure reporting exactly `["code"]`, re-renders the form echoing the
entered values, does not call `save_courses`, and leaves the result of
`load_courses` unchanged. -/
theorem validation_missing_code (s : FileState) :
    add_courses_post c5Form s = (.validationFailure ["code"] c5Course, s) ∧
    load_courses (add_courses_post c5Form s).2 = load_courses s := by
  constructor
  · rfl
  · rfl

/-- Claim C6: a malformed backing file makes `load_courses` fail with a
ParseError and an unreadable one with an IOError; both propagate uncaught
through `save_courses` and through the add-course handler, with no retry
and no recovery. -/
theorem load_error_propagation :
    load_courses .malformed = .error .parseError ∧
    load_courses .unreadable = .error .ioError ∧
    (∀ x, save_courses x .malformed = .error .parseError) ∧
    (∀ x, save_courses x .unreadable = .error .ioError) ∧
    add_courses_post validForm .malformed = (.storeError .parseError, .malformed) ∧
    add_courses_post validForm .unreadable = (.storeError .ioError, .unreadable) :=
  ⟨rfl, rfl, fun _ => rfl, fun _ => rfl, rfl, rfl⟩

/-- Claim C7: a successful `save_courses` preserves every existing record
at its position — the new catalog is one longer and its first
`cs.length` entries are exactly the old catalog, so nothing is removed or
reordered. -/
theorem append_preserves_existing (x : Course) (s s' : FileState)
    (cs cs' : List Course)
    (hsave : save_courses x s = .ok s')
    (hload : load_courses s = .ok cs) (hload' : load_courses s' = .ok cs') :
    cs'.length = cs.length + 1 ∧ cs'.take cs.length = cs := by
  simp only [save_courses, hload] at hsave
  cases hsave
  simp only [load_courses, Except.ok.injEq] at hload'
  subst hload'
  exact ⟨by simp, by simp⟩

/-- Witness for C7: appending to a one-record catalog keeps the record at
position 0. -/
theorem append_preserves_existing_witness :
    ([sampleCourse, c5Course] : List Course).length = [sampleCourse].length + 1 ∧
    ([sampleCourse, c5Course] : List Course).take [sampleCourse].length = [sampleCourse] :=
  append_preserves_existing c5Course (.valid [sampleCourse])
    (.valid [sampleCourse, c5Course]) [sampleCourse] [sampleCourse, c5Course]
    rfl rfl rfl

/-- Claim C9: a required field is reported missing exactly when its value
is the empty string — `missingFields` contains `"code"`, `"name"`,
`"instructor"` iff the corresponding field equals `""` — and a submission
whose required fields are the whitespace-only `" "` passes validation and
is persisted. -/
theorem required_field_empty_iff :
    (∀ course : Course,
      (("code" ∈ missingFields course) ↔ course.code = "") ∧
      (("name" ∈ missingFields course) ↔ course.name = "") ∧
      (("instructor" ∈ missingFields course) ↔ course.instructor = "")) ∧
    add_courses_post wsForm (.valid []) = (.redirectSuccess wsCourse, .valid [wsCourse]) := by
  constructor
  · intro course
    by_cases h1 : course.code = "" <;> by_cases h2 : course.name = "" <;>
      by_cases h3 : course.instructor = "" <;>
      simp [missingFields, h1, h2, h3]
  · rfl

/-- Claim C10: the POST handler reads all nine form fields before
validation, so a submission missing any of the nine keys — optional fields
included — fails with a key-lookup error, with no validation outcome and no
persistence. -/
theorem post_missing_key_error (form : Form) (s : FileState) (k : String)
    (hk : k ∈ fieldNames) (hnone : form k = none) :
    (add_courses_post form s).1.isKeyErr = true ∧
    (add_courses_post form s).2 = s := by
  cases h0 : form "code" with
  | none => simp [add_courses_post, readForm, h0, AddPostResult.isKeyErr]
  | some v0 =>
  cases h1 : form "name" with
  | none => simp [add_courses_post, readForm, h0, h1, AddPostResult.isKeyErr]
  | some v1 =>
  cases h2 : form "instructor" with
  | none => simp [add_courses_post, readForm, h0, h1, h2, AddPostResult.isKeyErr]
  | some v2 =>
  cases h3 : form "semester" with
  | none => simp [add_courses_post, readForm, h0, h1, h2, h3, AddPostResult.isKeyErr]
  | some v3 =>
  cases h4 : form "schedule" with
  | none => simp [add_courses_post, readForm, h0, h1, h2, h3, h4, AddPostResult.isKeyErr]
  | some v4 =>
  cases h5 : form "classroom" with
  | none =>
    simp [add_courses_post, readForm, h0, h1, h2, h3, h4, h5, AddPostResult.isKeyErr]
  | some v5 =>
  cases h6 : form "prerequisites" with
  | none =>
    simp [add_courses_post, readForm, h0, h1, h2, h3, h4, h5, h6, AddPostResult.isKeyErr]
  | some v6 =>
  cases h7 : form "grading" with
  | none =>
    simp [add_courses_post, readForm, h0, h1, h2, h3, h4, h5, h6, h7,
      AddPostResult.isKeyErr]
  | some v7 =>
  cases h8 : form "description" with
  | none =>
    simp [add_courses_post, readForm, h0, h1, h2, h3, h4, h5, h6, h7, h8,
      AddPostResult.isKeyErr]
  | some v8 =>
    exfalso
    simp only [fieldNames, List.mem_cons, List.not_mem_nil, or_false] at hk
    rcases hk with rfl | rfl | rfl | rfl | rfl | rfl | rfl | rfl | rfl <;>
      simp_all

/-- Witness for C10: the fully empty submission fails with a key-lookup
error and leaves the file untouched. -/
theorem post_missing_key_error_witness :
    (add_courses_post emptyForm .absent).1.isKeyErr = true ∧
    (add_courses_post emptyForm .absent).2 = .absent :=
  post_missing_key_error emptyForm .absent "code" (by simp [fieldNames]) rfl
